import Mathlib

/-!
Shallow embedding of the MarkGrow contact-form backend
(src/New folder/backend-example.js): the POST /api/submit-form handler,
its validation logic (required-field truthiness check and the email
regular expression), the two outgoing mail messages, and the
GET /health endpoint. Mail transport outcomes and the current clock
reading are passed in as explicit parameters; the handler itself is a
pure function from request body, environment and transport outcomes to
an HTTP response together with the ordered list of transport calls it
made and the lines it logged.
-/

namespace MarkGrow

/-- JavaScript truthiness of a possibly-absent string field: `undefined`
and the empty string are falsy, every other string is truthy.
Embeds the `!name || !email || !website` test and the template
conditionals `phone ? ... : ...`, `message ? ... : ...`. -/
def truthy : Option String → Bool
  | none => false
  | some s => !(s == "")

/-- JavaScript `a || b` on a possibly-absent string with a string default,
as in `process.env.RECIPIENT_EMAIL || ...` and `service || ...`. -/
def truthyOr (v : Option String) (d : String) : String :=
  if truthy v then v.getD "" else d

/-- JavaScript template-literal interpolation of a destructured field:
an absent field prints as the string `undefined`. -/
def interp : Option String → String
  | none => "undefined"
  | some s => s

/-- The ECMAScript `\s` class used by the source regex: WhiteSpace
(tab U+0009, vertical tab U+000B, form feed U+000C, space U+0020,
no-break space U+00A0, the Unicode Zs space separators U+1680,
U+2000..U+200A, U+202F, U+205F, U+3000, and the byte order mark U+FEFF)
together with the LineTerminators LF U+000A, CR U+000D, line separator
U+2028 and paragraph separator U+2029. -/
def isJsWhitespace (c : Char) : Bool :=
  c.val == 0x09 || c.val == 0x0A || c.val == 0x0B || c.val == 0x0C
  || c.val == 0x0D || c.val == 0x20 || c.val == 0xA0 || c.val == 0x1680
  || c.val == 0x2000 || c.val == 0x2001 || c.val == 0x2002 || c.val == 0x2003
  || c.val == 0x2004 || c.val == 0x2005 || c.val == 0x2006 || c.val == 0x2007
  || c.val == 0x2008 || c.val == 0x2009 || c.val == 0x200A || c.val == 0x2028
  || c.val == 0x2029 || c.val == 0x202F || c.val == 0x205F || c.val == 0x3000
  || c.val == 0xFEFF

/-- The character class `[^\s@]` of the source regex: any character that
is neither ECMAScript whitespace nor the at sign. -/
def isEmailChar (c : Char) : Bool := !isJsWhitespace c && c != '@'

/-- Matcher for the regex tail `[^\s@]+$`: one or more email characters
running to the end of the input. -/
def matchPlusEnd : List Char → Bool
  | [] => false
  | c :: cs => isEmailChar c && (cs.isEmpty || matchPlusEnd cs)

/-- Matcher for `[^\s@]*\.[^\s@]+$` (the part of `[^\s@]+\.[^\s@]+$`
remaining after at least one email character has been consumed): at each
step either the current character is the literal dot and the rest matches
`[^\s@]+$`, or it is consumed by the preceding `[^\s@]+` and matching
continues — the two alternatives of the backtracking search, joined by
disjunction. -/
def matchDotRest : List Char → Bool
  | [] => false
  | c :: cs => (c == '.' && matchPlusEnd cs) || (isEmailChar c && matchDotRest cs)

/-- Matcher for `[^\s@]+\.[^\s@]+$`, the part of the source regex after
the `@`. -/
def matchAfterAt : List Char → Bool
  | [] => false
  | c :: cs => isEmailChar c && matchDotRest cs

/-- Matcher for the regex remainder after the first character of the
local part: zero or more further email characters, then `@`, then
`matchAfterAt`. -/
def matchAtRest : List Char → Bool
  | [] => false
  | c :: cs => if c == '@' then matchAfterAt cs else isEmailChar c && matchAtRest cs

/-- `emailRegex.test(email)` for the source regex
`/^[^\s@]+@[^\s@]+\.[^\s@]+$/`. -/
def emailRegexTest (s : String) : Bool :=
  match s.data with
  | [] => false
  | c :: cs => isEmailChar c && matchAtRest cs

/-- The destructured request body
`const { name, email, website, phone, service, message } = req.body`:
each field is a string or absent. -/
structure ReqBody where
  name : Option String
  email : Option String
  website : Option String
  phone : Option String
  service : Option String
  message : Option String
deriving DecidableEq, Repr

/-- The environment variables the handler reads at request time. -/
structure Env where
  EMAIL_USER : Option String
  RECIPIENT_EMAIL : Option String
deriving DecidableEq, Repr

/-- A message handed to `transporter.sendMail`. The source field `from`
is a Lean keyword, hence the guillemets. -/
structure Mail where
  «from» : Option String
  «to» : String
  subject : String
  html : String
  replyTo : Option String
deriving DecidableEq, Repr

/-- The JSON bodies the two endpoints produce. -/
inductive RespBody where
  | errorJson (success : Bool) (error : String)
  | successJson (success : Bool) (message : String)
  | healthJson (status : String) (timestamp : String)
deriving DecidableEq, Repr

/-- Outcome of one `transporter.sendMail` call: resolves, or rejects
with an error carrying a message. -/
inductive SendOutcome where
  | ok : SendOutcome
  | err (msg : String) : SendOutcome
deriving DecidableEq, Repr

/-- What one request produces: the HTTP status and body sent back, the
mail transport calls made (in order), and the `console.error` lines. -/
structure HandlerResult where
  status : Nat
  body : RespBody
  calls : List Mail
  log : List String
deriving DecidableEq, Repr

/-- The notification html template (the `html:` template literal of
`mailOptions`), including its literal newlines and indentation;
`now` stands for `new Date().toLocaleString()`. -/
def notificationHtml (name email website phone service message : Option String)
    (now : String) : String :=
  "\n                " ++ "<h2>New Contact Form Submission</h2>"
  ++ "\n                " ++ ("<p><strong>Name:</strong> " ++ interp name ++ "</p>")
  ++ "\n                " ++ ("<p><strong>Email:</strong> " ++ interp email ++ "</p>")
  ++ "\n                " ++ ("<p><strong>Website:</strong> " ++ interp website ++ "</p>")
  ++ "\n                "
  ++ (if truthy phone then "<p><strong>Phone:</strong> " ++ interp phone ++ "</p>" else "")
  ++ "\n                "
  ++ ("<p><strong>Service:</strong> " ++ truthyOr service "Not specified" ++ "</p>")
  ++ "\n                "
  ++ (if truthy message then "<p><strong>Message:</strong><br>" ++ interp message ++ "</p>" else "")
  ++ "\n                " ++ "<hr>"
  ++ "\n                " ++ ("<p><small>Submitted: " ++ now ++ "</small></p>")
  ++ "\n            "

/-- The notification message `mailOptions` built for a valid submission. -/
def mailOptions (env : Env) (name email website phone service message : Option String)
    (now : String) : Mail :=
  { «from» := env.EMAIL_USER
    «to» := truthyOr env.RECIPIENT_EMAIL "hello@markgrow.com"
    subject := "New SEO Audit Request from " ++ interp name
    html := notificationHtml name email website phone service message now
    replyTo := email }

/-- The confirmation message `confirmationEmail` sent to the submitter. -/
def confirmationEmail (env : Env) (name email website : Option String) : Mail :=
  { «from» := env.EMAIL_USER
    «to» := interp email
    subject := "Thank you for your SEO audit request - MarkGrow"
    html := "\n                <h2>Thank you, "
      ++ interp name
      ++ "!</h2>\n                <p>We\x27ve received your request for a free SEO audit. Our team will review your website (<strong>"
      ++ interp website
      ++ "</strong>) and send you a comprehensive report within 24 hours.</p>\n                <p>If you have any questions, feel free to reply to this email.</p>\n                <hr>\n                <p><strong>MarkGrow Team</strong><br>\n                ROI-Driven SEO Services</p>\n            "
    replyTo := none }

/-- The `app.post('/api/submit-form')` handler. `t1` and `t2` are the
outcomes of the first and second `transporter.sendMail` call (the second
is consulted only if the handler reaches that call); `now` is the clock
reading used by the notification template. `res.json` with no explicit
status sends 200. A rejected send is caught by the surrounding
try/catch, which logs the error and sends the fixed 500 body. -/
def submitForm (env : Env) (t1 t2 : SendOutcome) (now : String) (req : ReqBody) :
    HandlerResult :=
  if !truthy req.name || !truthy req.email || !truthy req.website then
    { status := 400, body := .errorJson false "Missing required fields"
      calls := [], log := [] }
  else if !emailRegexTest (interp req.email) then
    { status := 400, body := .errorJson false "Invalid email address"
      calls := [], log := [] }
  else
    let m1 := mailOptions env req.name req.email req.website req.phone req.service
      req.message now
    match t1 with
    | .err e =>
      { status := 500
        body := .errorJson false "Internal server error. Please try again later."
        calls := [m1], log := ["Form submission error: " ++ e] }
    | .ok =>
      let m2 := confirmationEmail env req.name req.email req.website
      match t2 with
      | .err e =>
        { status := 500
          body := .errorJson false "Internal server error. Please try again later."
          calls := [m1, m2], log := ["Form submission error: " ++ e] }
      | .ok =>
        { status := 200, body := .successJson true "Form submitted successfully"
          calls := [m1, m2], log := [] }

/-- The `app.get('/health')` handler; `now` stands for
`new Date().toISOString()`. It consults no transport outcome and makes
no transport call. -/
def healthHandler (now : String) : HandlerResult :=
  { status := 200, body := .healthJson "ok" now, calls := [], log := [] }

/-- Everything one request supplies from outside the handler code: the
two transport outcomes, the clock reading and the body. -/
structure RequestCtx where
  t1 : SendOutcome
  t2 : SendOutcome
  now : String
  req : ReqBody
deriving DecidableEq, Repr

/-- A run of the server over a sequence of requests: each is handled by
`submitForm` from the shared read-only environment alone — the
handler closes over no mutable state, so a run is a plain map. -/
def serve (env : Env) (rs : List RequestCtx) : List HandlerResult :=
  rs.map (fun r => submitForm env r.t1 r.t2 r.now r.req)

/-- All transport calls of a run, in order. -/
def totalCalls (results : List HandlerResult) : List Mail :=
  (results.map HandlerResult.calls).flatten

/-- Sample environment with both variables unset. -/
def env0 : Env := { EMAIL_USER := none, RECIPIENT_EMAIL := none }

/-- The valid submission named by the spec. -/
def reqJohn : ReqBody :=
  { name := some "John Smith", email := some "john@company.com"
    website := some "https://example.com", phone := none
    service := some "on-page", message := none }

/-- A submission with the required name field absent and a malformed
email. -/
def reqNoName : ReqBody :=
  { name := none, email := some "not-an-email"
    website := some "https://example.com", phone := none
    service := none, message := none }

/-- A submission whose fields are present but whose email is not an
address. -/
def reqBadEmail : ReqBody :=
  { name := some "John Smith", email := some "not-an-email"
    website := some "https://example.com", phone := none
    service := none, message := none }

/-- `matchPlusEnd` accepts exactly the nonempty strings of email
characters. -/
theorem matchPlusEnd_iff (l : List Char) :
    matchPlusEnd l = true ↔ l ≠ [] ∧ l.all isEmailChar = true := by
  induction l with
  | nil => simp [matchPlusEnd]
  | cons c cs ih =>
    cases cs with
    | nil => simp [matchPlusEnd]
    | cons d ds =>
      rw [matchPlusEnd]
      simp only [List.isEmpty, Bool.false_or, Bool.and_eq_true, ih, List.all_cons,
        ne_eq, reduceCtorEq, not_false_iff, true_and]

/-- `matchDotRest` accepts exactly the strings of the shape
`b ++ "." ++ c` with `b` possibly empty, `c` nonempty, and all characters
of `b` and `c` email characters. -/
theorem matchDotRest_iff (l : List Char) :
    matchDotRest l = true ↔
      ∃ b c, l = b ++ '.' :: c ∧ b.all isEmailChar = true ∧
        c ≠ [] ∧ c.all isEmailChar = true := by
  induction l with
  | nil => simp [matchDotRest]
  | cons x xs ih =>
    rw [matchDotRest]
    constructor
    · intro h
      rcases Bool.or_eq_true_iff.1 h with h1 | h2
      · obtain ⟨hx, hp⟩ := Bool.and_eq_true_iff.1 h1
        obtain ⟨hne, hall⟩ := (matchPlusEnd_iff xs).1 hp
        exact ⟨[], xs, by simp [beq_iff_eq.1 hx], rfl, hne, hall⟩
      · obtain ⟨hx, hd⟩ := Bool.and_eq_true_iff.1 h2
        obtain ⟨b, c, rfl, hb, hc, hcall⟩ := ih.1 hd
        exact ⟨x :: b, c, rfl, by simp [hx, hb], hc, hcall⟩
    · rintro ⟨b, c, hl, hb, hc, hcall⟩
      cases b with
      | nil =>
        obtain ⟨hx, hxs⟩ := List.cons_eq_cons.1 hl
        subst hx; subst hxs
        exact Bool.or_eq_true_iff.2 (Or.inl (by
          simp [matchPlusEnd_iff, hc, hcall]))
      | cons y b' =>
        obtain ⟨hx, hxs⟩ := List.cons_eq_cons.1 (by simpa using hl)
        subst hx; subst hxs
        simp only [List.all_cons, Bool.and_eq_true] at hb
        exact Bool.or_eq_true_iff.2 (Or.inr (Bool.and_eq_true_iff.2
          ⟨hb.1, ih.2 ⟨b', c, rfl, hb.2, hc, hcall⟩⟩))

/-- `matchAfterAt` accepts exactly the strings of the shape
`b ++ "." ++ c` with both `b` and `c` nonempty strings of email
characters (the dot may also occur inside `b` or `c`). -/
theorem matchAfterAt_iff (l : List Char) :
    matchAfterAt l = true ↔
      ∃ b c, l = b ++ '.' :: c ∧ b ≠ [] ∧ b.all isEmailChar = true ∧
        c ≠ [] ∧ c.all isEmailChar = true := by
  cases l with
  | nil => simp [matchAfterAt]
  | cons x xs =>
    rw [matchAfterAt]
    constructor
    · intro h
      obtain ⟨hx, hd⟩ := Bool.and_eq_true_iff.1 h
      obtain ⟨b, c, rfl, hb, hc, hcall⟩ := (matchDotRest_iff xs).1 hd
      exact ⟨x :: b, c, rfl, by simp, by simp [hx, hb], hc, hcall⟩
    · rintro ⟨b, c, hl, hbne, hb, hc, hcall⟩
      cases b with
      | nil => exact absurd rfl hbne
      | cons y b' =>
        obtain ⟨hx, hxs⟩ := List.cons_eq_cons.1 (by simpa using hl)
        subst hx; subst hxs
        simp only [List.all_cons, Bool.and_eq_true] at hb
        exact Bool.and_eq_true_iff.2
          ⟨hb.1, (matchDotRest_iff _).2 ⟨b', c, rfl, hb.2, hc, hcall⟩⟩

/-- `isEmailChar` rejects the at sign. -/
theorem isEmailChar_at : isEmailChar '@' = false := by decide

/-- `matchAtRest` accepts exactly the strings of the shape
`a ++ "@" ++ rest` with `a` a possibly-empty string of email characters
and `rest` accepted by `matchAfterAt`. -/
theorem matchAtRest_iff (l : List Char) :
    matchAtRest l = true ↔
      ∃ a rest, l = a ++ '@' :: rest ∧ a.all isEmailChar = true ∧
        matchAfterAt rest = true := by
  induction l with
  | nil => simp [matchAtRest]
  | cons x xs ih =>
    rw [matchAtRest]
    by_cases hx : x = '@'
    · subst hx
      simp only [beq_self_eq_true, if_true]
      constructor
      · intro h
        exact ⟨[], xs, rfl, rfl, h⟩
      · rintro ⟨a, rest, hl, ha, hrest⟩
        cases a with
        | nil =>
          have hxs : xs = rest := by simpa using hl
          subst hxs; exact hrest
        | cons y a' =>
          obtain ⟨hy, -⟩ := List.cons_eq_cons.1 (by simpa using hl)
          simp only [List.all_cons, Bool.and_eq_true] at ha
          rw [← hy, isEmailChar_at] at ha
          exact absurd ha.1 (by simp)
    · rw [if_neg (by simpa using hx)]
      constructor
      · intro h
        obtain ⟨hxe, hrest⟩ := Bool.and_eq_true_iff.1 h
        obtain ⟨a, rest, rfl, ha, hm⟩ := ih.1 hrest
        exact ⟨x :: a, rest, rfl, by simp [hxe, ha], hm⟩
      · rintro ⟨a, rest, hl, ha, hm⟩
        cases a with
        | nil =>
          obtain ⟨hy, -⟩ := List.cons_eq_cons.1 (by simpa using hl)
          exact absurd hy hx
        | cons y a' =>
          obtain ⟨hy, hxs⟩ := List.cons_eq_cons.1 (by simpa using hl)
          subst hy; subst hxs
          simp only [List.all_cons, Bool.and_eq_true] at ha
          exact Bool.and_eq_true_iff.2
            ⟨ha.1, ih.2 ⟨a', rest, rfl, ha.2, hm⟩⟩

/-- The email test accepts exactly the strings that split as
`a ++ "@" ++ b ++ "." ++ c` with `a`, `b`, `c` nonempty strings of
characters that are neither whitespace nor the at sign. -/
theorem emailRegexTest_iff (s : String) :
    emailRegexTest s = true ↔
      ∃ a b c : List Char, s.data = a ++ '@' :: (b ++ '.' :: c) ∧
        a ≠ [] ∧ b ≠ [] ∧ c ≠ [] ∧
        a.all isEmailChar = true ∧ b.all isEmailChar = true ∧
        c.all isEmailChar = true := by
  obtain ⟨l⟩ := s
  cases l with
  | nil => simp [emailRegexTest]
  | cons x xs =>
    rw [show emailRegexTest ⟨x :: xs⟩ = (isEmailChar x && matchAtRest xs) from rfl]
    show _ ↔ ∃ a b c : List Char, x :: xs = a ++ '@' :: (b ++ '.' :: c) ∧ _
    constructor
    · intro h
      obtain ⟨hx, hrest⟩ := Bool.and_eq_true_iff.1 h
      obtain ⟨a, rest, rfl, ha, hafter⟩ := (matchAtRest_iff xs).1 hrest
      obtain ⟨b, c, rfl, hbne, hb, hcne, hc⟩ := (matchAfterAt_iff rest).1 hafter
      exact ⟨x :: a, b, c, rfl, by simp, hbne, hcne, by simp [hx, ha], hb, hc⟩
    · rintro ⟨a, b, c, hl, hane, hbne, hcne, ha, hb, hc⟩
      cases a with
      | nil => exact absurd rfl hane
      | cons y a' =>
        obtain ⟨hy, hxs⟩ := List.cons_eq_cons.1 (by simpa using hl)
        subst hy
        simp only [List.all_cons, Bool.and_eq_true] at ha
        exact Bool.and_eq_true_iff.2
          ⟨ha.1, (matchAtRest_iff xs).2 ⟨a', b ++ '.' :: c, hxs, ha.2,
            (matchAfterAt_iff _).2 ⟨b, c, rfl, hbne, hb, hcne, hc⟩⟩⟩

/-- `truthy` of an absent field is false. -/
theorem truthy_none : truthy none = false := rfl

/-- The notification body contains the submitted name. -/
theorem notificationHtml_has_name (n e w p sv m : Option String) (now : String) :
    ∃ pre post, notificationHtml n e w p sv m now = pre ++ (interp n ++ post) :=
  ⟨"\n                " ++ "<h2>New Contact Form Submission</h2>"
    ++ "\n                " ++ "<p><strong>Name:</strong> ",
   "</p>" ++ "\n                " ++ "<p><strong>Email:</strong> " ++ interp e ++ "</p>"
    ++ "\n                " ++ "<p><strong>Website:</strong> " ++ interp w ++ "</p>"
    ++ "\n                "
    ++ (if truthy p then "<p><strong>Phone:</strong> " ++ interp p ++ "</p>" else "")
    ++ "\n                " ++ "<p><strong>Service:</strong> "
    ++ truthyOr sv "Not specified" ++ "</p>" ++ "\n                "
    ++ (if truthy m then "<p><strong>Message:</strong><br>" ++ interp m ++ "</p>" else "")
    ++ "\n                " ++ "<hr>" ++ "\n                "
    ++ "<p><small>Submitted: " ++ now ++ "</small></p>" ++ "\n            ",
   by simp only [notificationHtml, String.append_assoc]⟩

/-- The notification body contains the submitted email. -/
theorem notificationHtml_has_email (n e w p sv m : Option String) (now : String) :
    ∃ pre post, notificationHtml n e w p sv m now = pre ++ (interp e ++ post) :=
  ⟨"\n                " ++ "<h2>New Contact Form Submission</h2>"
    ++ "\n                " ++ "<p><strong>Name:</strong> " ++ interp n ++ "</p>"
    ++ "\n                " ++ "<p><strong>Email:</strong> ",
   "</p>" ++ "\n                " ++ "<p><strong>Website:</strong> " ++ interp w ++ "</p>"
    ++ "\n                "
    ++ (if truthy p then "<p><strong>Phone:</strong> " ++ interp p ++ "</p>" else "")
    ++ "\n                " ++ "<p><strong>Service:</strong> "
    ++ truthyOr sv "Not specified" ++ "</p>" ++ "\n                "
    ++ (if truthy m then "<p><strong>Message:</strong><br>" ++ interp m ++ "</p>" else "")
    ++ "\n                " ++ "<hr>" ++ "\n                "
    ++ "<p><small>Submitted: " ++ now ++ "</small></p>" ++ "\n            ",
   by simp only [notificationHtml, String.append_assoc]⟩

/-- The notification body contains the submitted website. -/
theorem notificationHtml_has_website (n e w p sv m : Option String) (now : String) :
    ∃ pre post, notificationHtml n e w p sv m now = pre ++ (interp w ++ post) :=
  ⟨"\n                " ++ "<h2>New Contact Form Submission</h2>"
    ++ "\n                " ++ "<p><strong>Name:</strong> " ++ interp n ++ "</p>"
    ++ "\n                " ++ "<p><strong>Email:</strong> " ++ interp e ++ "</p>"
    ++ "\n                " ++ "<p><strong>Website:</strong> ",
   "</p>" ++ "\n                "
    ++ (if truthy p then "<p><strong>Phone:</strong> " ++ interp p ++ "</p>" else "")
    ++ "\n                " ++ "<p><strong>Service:</strong> "
    ++ truthyOr sv "Not specified" ++ "</p>" ++ "\n                "
    ++ (if truthy m then "<p><strong>Message:</strong><br>" ++ interp m ++ "</p>" else "")
    ++ "\n                " ++ "<hr>" ++ "\n                "
    ++ "<p><small>Submitted: " ++ now ++ "</small></p>" ++ "\n            ",
   by simp only [notificationHtml, String.append_assoc]⟩

/-- When the phone field is truthy the notification body contains the
phone line. -/
theorem notificationHtml_has_phone (n e w p sv m : Option String) (now : String)
    (hp : truthy p = true) :
    ∃ pre post, notificationHtml n e w p sv m now =
      pre ++ (("<p><strong>Phone:</strong> " ++ interp p ++ "</p>") ++ post) := by
  have hIf : (if truthy p = true then "<p><strong>Phone:</strong> " ++ interp p ++ "</p>"
      else "") = "<p><strong>Phone:</strong> " ++ interp p ++ "</p>" := by
    rw [hp]; simp
  refine ⟨"\n                " ++ "<h2>New Contact Form Submission</h2>"
    ++ "\n                " ++ "<p><strong>Name:</strong> " ++ interp n ++ "</p>"
    ++ "\n                " ++ "<p><strong>Email:</strong> " ++ interp e ++ "</p>"
    ++ "\n                " ++ "<p><strong>Website:</strong> " ++ interp w ++ "</p>"
    ++ "\n                ",
   "\n                " ++ "<p><strong>Service:</strong> "
    ++ truthyOr sv "Not specified" ++ "</p>" ++ "\n                "
    ++ (if truthy m then "<p><strong>Message:</strong><br>" ++ interp m ++ "</p>" else "")
    ++ "\n                " ++ "<hr>" ++ "\n                "
    ++ "<p><small>Submitted: " ++ now ++ "</small></p>" ++ "\n            ", ?_⟩
  rw [notificationHtml, hIf]
  simp only [String.append_assoc]

/-- When the message field is truthy the notification body contains the
message line. -/
theorem notificationHtml_has_message (n e w p sv m : Option String) (now : String)
    (hm : truthy m = true) :
    ∃ pre post, notificationHtml n e w p sv m now =
      pre ++ (("<p><strong>Message:</strong><br>" ++ interp m ++ "</p>") ++ post) := by
  have hIf : (if truthy m = true then "<p><strong>Message:</strong><br>" ++ interp m ++ "</p>"
      else "") = "<p><strong>Message:</strong><br>" ++ interp m ++ "</p>" := by
    rw [hm]; simp
  refine ⟨"\n                " ++ "<h2>New Contact Form Submission</h2>"
    ++ "\n                " ++ "<p><strong>Name:</strong> " ++ interp n ++ "</p>"
    ++ "\n                " ++ "<p><strong>Email:</strong> " ++ interp e ++ "</p>"
    ++ "\n                " ++ "<p><strong>Website:</strong> " ++ interp w ++ "</p>"
    ++ "\n                "
    ++ (if truthy p then "<p><strong>Phone:</strong> " ++ interp p ++ "</p>" else "")
    ++ "\n                " ++ "<p><strong>Service:</strong> "
    ++ truthyOr sv "Not specified" ++ "</p>" ++ "\n                ",
   "\n                " ++ "<hr>" ++ "\n                "
    ++ "<p><small>Submitted: " ++ now ++ "</small></p>" ++ "\n            ", ?_⟩
  rw [notificationHtml, hIf]
  simp only [String.append_assoc]

/-- When the service field is falsy the notification body renders the
service line with the text `Not specified`. -/
theorem notificationHtml_service_default (n e w p sv m : Option String) (now : String)
    (hsv : truthy sv = false) :
    ∃ pre post, notificationHtml n e w p sv m now =
      pre ++ (("<p><strong>Service:</strong> " ++ "Not specified" ++ "</p>") ++ post) := by
  have hOr : truthyOr sv "Not specified" = "Not specified" := by
    rw [truthyOr, hsv]; simp
  refine ⟨"\n                " ++ "<h2>New Contact Form Submission</h2>"
    ++ "\n                " ++ "<p><strong>Name:</strong> " ++ interp n ++ "</p>"
    ++ "\n                " ++ "<p><strong>Email:</strong> " ++ interp e ++ "</p>"
    ++ "\n                " ++ "<p><strong>Website:</strong> " ++ interp w ++ "</p>"
    ++ "\n                "
    ++ (if truthy p then "<p><strong>Phone:</strong> " ++ interp p ++ "</p>" else "")
    ++ "\n                ",
   "\n                "
    ++ (if truthy m then "<p><strong>Message:</strong><br>" ++ interp m ++ "</p>" else "")
    ++ "\n                " ++ "<hr>" ++ "\n                "
    ++ "<p><small>Submitted: " ++ now ++ "</small></p>" ++ "\n            ", ?_⟩
  rw [notificationHtml, hOr]
  simp only [String.append_assoc]

/-- A falsy phone field leaves no trace: the body is the one built with
no phone at all. -/
theorem notificationHtml_no_phone (n e w p sv m : Option String) (now : String)
    (hp : truthy p = false) :
    notificationHtml n e w p sv m now = notificationHtml n e w none sv m now := by
  have e1 : (if truthy p = true then "<p><strong>Phone:</strong> " ++ interp p ++ "</p>"
      else "") = "" := by rw [hp]; simp
  have e2 : (if truthy (none : Option String) = true then
      "<p><strong>Phone:</strong> " ++ interp (none : Option String) ++ "</p>"
      else "") = "" := by rw [truthy_none]; simp
  rw [notificationHtml, notificationHtml, e1, e2]

/-- A falsy message field leaves no trace: the body is the one built
with no message at all. -/
theorem notificationHtml_no_message (n e w p sv m : Option String) (now : String)
    (hm : truthy m = false) :
    notificationHtml n e w p sv m now = notificationHtml n e w p sv none now := by
  have e1 : (if truthy m = true then "<p><strong>Message:</strong><br>" ++ interp m ++ "</p>"
      else "") = "" := by rw [hm]; simp
  have e2 : (if truthy (none : Option String) = true then
      "<p><strong>Message:</strong><br>" ++ interp (none : Option String) ++ "</p>"
      else "") = "" := by rw [truthy_none]; simp
  rw [notificationHtml, notificationHtml, e1, e2]

/-- Claim C1: for every submission whose name, email and website are
truthy and whose email matches the address pattern, with both transport
calls succeeding, the handler makes exactly two transport calls — the
notification message first, the confirmation message second — and
responds 200 with body success true and a message string. -/
theorem submitForm_valid_two_sends (env : Env) (now : String) (req : ReqBody)
    (hn : truthy req.name = true) (he : truthy req.email = true)
    (hw : truthy req.website = true)
    (hre : emailRegexTest (interp req.email) = true) :
    submitForm env .ok .ok now req =
      { status := 200, body := .successJson true "Form submitted successfully"
        calls := [mailOptions env req.name req.email req.website req.phone req.service
            req.message now,
          confirmationEmail env req.name req.email req.website]
        log := [] } := by
  simp [submitForm, hn, he, hw, hre]

/-- Witness for C1 at the sample submission named by the spec. -/
theorem submitForm_valid_two_sends_witness :
    submitForm env0 .ok .ok "1/1/2024, 12:00:00 PM" reqJohn =
      { status := 200, body := .successJson true "Form submitted successfully"
        calls := [mailOptions env0 (some "John Smith") (some "john@company.com")
            (some "https://example.com") none (some "on-page") none "1/1/2024, 12:00:00 PM",
          confirmationEmail env0 (some "John Smith") (some "john@company.com")
            (some "https://example.com")]
        log := [] } :=
  submitForm_valid_two_sends env0 "1/1/2024, 12:00:00 PM" reqJohn (by decide) (by decide)
    (by decide) (by decide)

/-- Claim C2: a submission with name, email or website missing or empty
is answered 400 with an error body, and no transport call happens. -/
theorem submitForm_missing_required (env : Env) (t1 t2 : SendOutcome) (now : String)
    (req : ReqBody)
    (h : truthy req.name = false ∨ truthy req.email = false ∨ truthy req.website = false) :
    submitForm env t1 t2 now req =
      { status := 400, body := .errorJson false "Missing required fields"
        calls := [], log := [] } := by
  rcases h with h | h | h <;> simp [submitForm, h]

/-- Witness for C2 at a submission with no name. -/
theorem submitForm_missing_required_witness :
    submitForm env0 .ok .ok "t" reqNoName =
      { status := 400, body := .errorJson false "Missing required fields"
        calls := [], log := [] } :=
  submitForm_missing_required env0 .ok .ok "t" reqNoName (Or.inl rfl)

/-- Claim C3: a submission with all required fields present but an email
failing the address pattern is answered 400 with an error body, and no
transport call happens. -/
theorem submitForm_invalid_email_400 (env : Env) (t1 t2 : SendOutcome) (now : String)
    (req : ReqBody)
    (hn : truthy req.name = true) (he : truthy req.email = true)
    (hw : truthy req.website = true)
    (hre : emailRegexTest (interp req.email) = false) :
    submitForm env t1 t2 now req =
      { status := 400, body := .errorJson false "Invalid email address"
        calls := [], log := [] } := by
  simp [submitForm, hn, he, hw, hre]

/-- Witness for C3 at the email string the spec names. -/
theorem submitForm_invalid_email_400_witness :
    submitForm env0 .ok .ok "t" reqBadEmail =
      { status := 400, body := .errorJson false "Invalid email address"
        calls := [], log := [] } :=
  submitForm_invalid_email_400 env0 .ok .ok "t" reqBadEmail (by decide) (by decide)
    (by decide) (by decide)

/-- Claim C4: on a valid submission, a rejected send — whether the first
or the second — draws a 500 whose body is the one fixed generic message,
independent of which call failed and of the error text; the error text
reaches only the server-side log, never the response. -/
theorem submitForm_transport_error_500 (env : Env) (t2 : SendOutcome) (now : String)
    (req : ReqBody) (e1 e2 : String)
    (hn : truthy req.name = true) (he : truthy req.email = true)
    (hw : truthy req.website = true)
    (hre : emailRegexTest (interp req.email) = true) :
    ((submitForm env (.err e1) t2 now req).status = 500 ∧
      (submitForm env (.err e1) t2 now req).body =
        .errorJson false "Internal server error. Please try again later." ∧
      (submitForm env (.err e1) t2 now req).log = ["Form submission error: " ++ e1]) ∧
    ((submitForm env .ok (.err e2) now req).status = 500 ∧
      (submitForm env .ok (.err e2) now req).body =
        .errorJson false "Internal server error. Please try again later." ∧
      (submitForm env .ok (.err e2) now req).log = ["Form submission error: " ++ e2]) := by
  simp [submitForm, hn, he, hw, hre]

/-- Witness for C4 with two distinct concrete transport errors. -/
theorem submitForm_transport_error_500_witness :
    ((submitForm env0 (.err "ECONNREFUSED") .ok "t" reqJohn).status = 500 ∧
      (submitForm env0 (.err "ECONNREFUSED") .ok "t" reqJohn).body =
        .errorJson false "Internal server error. Please try again later." ∧
      (submitForm env0 (.err "ECONNREFUSED") .ok "t" reqJohn).log =
        ["Form submission error: " ++ "ECONNREFUSED"]) ∧
    ((submitForm env0 .ok (.err "ETIMEDOUT") "t" reqJohn).status = 500 ∧
      (submitForm env0 .ok (.err "ETIMEDOUT") "t" reqJohn).body =
        .errorJson false "Internal server error. Please try again later." ∧
      (submitForm env0 .ok (.err "ETIMEDOUT") "t" reqJohn).log =
        ["Form submission error: " ++ "ETIMEDOUT"]) :=
  submitForm_transport_error_500 env0 .ok "t" reqJohn "ECONNREFUSED" "ETIMEDOUT"
    (by decide) (by decide) (by decide) (by decide)

/-- Claim C5: on a valid submission, when the first (notification) send
fails, the only transport call made is the notification — the
confirmation send is never attempted, the result does not depend on the
second outcome at all — and the request surfaces as a 500. -/
theorem submitForm_notification_failure_short_circuits (env : Env) (t2 t2' : SendOutcome)
    (now : String) (req : ReqBody) (e : String)
    (hn : truthy req.name = true) (he : truthy req.email = true)
    (hw : truthy req.website = true)
    (hre : emailRegexTest (interp req.email) = true) :
    (submitForm env (.err e) t2 now req).calls =
      [mailOptions env req.name req.email req.website req.phone req.service
        req.message now] ∧
    (submitForm env (.err e) t2 now req).status = 500 ∧
    submitForm env (.err e) t2 now req = submitForm env (.err e) t2' now req := by
  simp [submitForm, hn, he, hw, hre]

/-- Witness for C5 with a concrete failing first send. -/
theorem submitForm_notification_failure_short_circuits_witness :
    (submitForm env0 (.err "boom") .ok "t" reqJohn).calls =
      [mailOptions env0 (some "John Smith") (some "john@company.com")
        (some "https://example.com") none (some "on-page") none "t"] ∧
    (submitForm env0 (.err "boom") .ok "t" reqJohn).status = 500 ∧
    submitForm env0 (.err "boom") .ok "t" reqJohn =
      submitForm env0 (.err "boom") (.err "other") "t" reqJohn :=
  submitForm_notification_failure_short_circuits env0 .ok (.err "other") "t" reqJohn
    "boom" (by decide) (by decide) (by decide) (by decide)

/-- Claim C6: GET /health responds 200 with status ok and the current
clock reading, makes no transport call, logs nothing — and, taking no
transport outcome as input at all, cannot depend on transport
availability. -/
theorem healthHandler_always_ok (now : String) :
    healthHandler now =
      { status := 200, body := .healthJson "ok" now, calls := [], log := [] } := rfl

/-- Claim C7: on a valid submission the notification goes to
RECIPIENT_EMAIL with default hello@markgrow.com, the confirmation goes
to the submitter's own address; the notification body contains name,
email and website, carries the phone and message lines exactly when
those fields are truthy (a falsy field leaves the body identical to one
built with the field absent), and shows `Not specified` for a falsy
service field. -/
theorem submitForm_mail_addressing_and_content (env : Env) (now : String) (req : ReqBody)
    (hn : truthy req.name = true) (he : truthy req.email = true)
    (hw : truthy req.website = true)
    (hre : emailRegexTest (interp req.email) = true) :
    ∃ m1 m2 : Mail,
      (submitForm env .ok .ok now req).calls = [m1, m2] ∧
      m1.«to» = truthyOr env.RECIPIENT_EMAIL "hello@markgrow.com" ∧
      (env.RECIPIENT_EMAIL = none → m1.«to» = "hello@markgrow.com") ∧
      m2.«to» = interp req.email ∧
      (∃ pre post, m1.html = pre ++ (interp req.name ++ post)) ∧
      (∃ pre post, m1.html = pre ++ (interp req.email ++ post)) ∧
      (∃ pre post, m1.html = pre ++ (interp req.website ++ post)) ∧
      (truthy req.phone = true → ∃ pre post, m1.html =
        pre ++ (("<p><strong>Phone:</strong> " ++ interp req.phone ++ "</p>") ++ post)) ∧
      (truthy req.phone = false → m1.html =
        notificationHtml req.name req.email req.website none req.service req.message now) ∧
      (truthy req.message = true → ∃ pre post, m1.html =
        pre ++ (("<p><strong>Message:</strong><br>" ++ interp req.message ++ "</p>") ++ post)) ∧
      (truthy req.message = false → m1.html =
        notificationHtml req.name req.email req.website req.phone req.service none now) ∧
      (truthy req.service = false → ∃ pre post, m1.html =
        pre ++ (("<p><strong>Service:</strong> " ++ "Not specified" ++ "</p>") ++ post)) := by
  refine ⟨mailOptions env req.name req.email req.website req.phone req.service
      req.message now,
    confirmationEmail env req.name req.email req.website,
    ?_, rfl, ?_, rfl, ?_, ?_, ?_, ?_, ?_, ?_, ?_, ?_⟩
  · simp [submitForm, hn, he, hw, hre]
  · intro h
    show truthyOr env.RECIPIENT_EMAIL "hello@markgrow.com" = "hello@markgrow.com"
    rw [h, truthyOr, truthy_none]
    simp
  · exact notificationHtml_has_name req.name req.email req.website req.phone
      req.service req.message now
  · exact notificationHtml_has_email req.name req.email req.website req.phone
      req.service req.message now
  · exact notificationHtml_has_website req.name req.email req.website req.phone
      req.service req.message now
  · intro hp
    exact notificationHtml_has_phone req.name req.email req.website req.phone
      req.service req.message now hp
  · intro hp
    exact notificationHtml_no_phone req.name req.email req.website req.phone
      req.service req.message now hp
  · intro hm
    exact notificationHtml_has_message req.name req.email req.website req.phone
      req.service req.message now hm
  · intro hm
    exact notificationHtml_no_message req.name req.email req.website req.phone
      req.service req.message now hm
  · intro hsv
    exact notificationHtml_service_default req.name req.email req.website req.phone
      req.service req.message now hsv

/-- Witness for C7 at the sample submission, with RECIPIENT_EMAIL
unset. -/
theorem submitForm_mail_addressing_and_content_witness :
    ∃ m1 m2 : Mail, (submitForm env0 .ok .ok "t" reqJohn).calls = [m1, m2] ∧
      m1.«to» = "hello@markgrow.com" ∧ m2.«to» = "john@company.com" := by
  obtain ⟨m1, m2, hcalls, -, hdef, hto2, -⟩ :=
    submitForm_mail_addressing_and_content env0 "t" reqJohn (by decide) (by decide)
      (by decide) (by decide)
  exact ⟨m1, m2, hcalls, hdef rfl, hto2.trans rfl⟩

/-- Claim C8: the handler is a pure function of the request's own data
and the shared read-only environment — in any run, the response at
position i is computed from the request at position i alone — and
submitting the same payload twice yields the same response twice and two
independent transport-call lists concatenated without deduplication. -/
theorem serve_stateless_no_dedup (env : Env) (rs : List RequestCtx) (i : Nat)
    (r : RequestCtx) :
    (serve env rs)[i]? = (rs[i]?).map (fun x => submitForm env x.t1 x.t2 x.now x.req) ∧
    serve env [r, r] =
      [submitForm env r.t1 r.t2 r.now r.req, submitForm env r.t1 r.t2 r.now r.req] ∧
    totalCalls (serve env [r, r]) =
      (submitForm env r.t1 r.t2 r.now r.req).calls ++
        (submitForm env r.t1 r.t2 r.now r.req).calls := by
  refine ⟨?_, rfl, ?_⟩
  · simp [serve]
  · simp [serve, totalCalls]

/-- Claim C9: the address pattern accepts a string exactly when it is
one or more characters that are neither ECMAScript whitespace nor an at
sign, an at sign, one or more such characters, a dot, and one or more
such characters to the end; in particular a dotless domain, a second at
sign or any whitespace character — the ASCII space as well as the likes
of the no-break space U+00A0 and the vertical tab U+000B — is rejected,
and such an email draws a 400 from the handler. -/
theorem emailRegexTest_characterization (s : String) :
    (emailRegexTest s = true ↔
      ∃ a b c : List Char, s.data = a ++ '@' :: (b ++ '.' :: c) ∧
        a ≠ [] ∧ b ≠ [] ∧ c ≠ [] ∧
        a.all isEmailChar = true ∧ b.all isEmailChar = true ∧
        c.all isEmailChar = true) ∧
    emailRegexTest "a@b" = false ∧
    emailRegexTest "john@company@com.x" = false ∧
    emailRegexTest "jo hn@company.com" = false ∧
    emailRegexTest "a\u00A0b@c.d" = false ∧
    emailRegexTest "x@y\u000B.z" = false ∧
    emailRegexTest "\uFEFFx@y.z" = false ∧
    (submitForm env0 .ok .ok "t"
      { name := some "John Smith", email := some "a@b"
        website := some "https://example.com", phone := none
        service := none, message := none }).status = 400 :=
  ⟨emailRegexTest_iff s, by decide, by decide, by decide, by decide, by decide,
    by decide, by decide⟩

/-- Claim C10: the required-field check is JavaScript truthiness — a
whitespace-only name is accepted and such a submission completes with
200 — and it runs before the email-pattern check, so a submission
missing a required field is answered with the missing-fields error
whatever its email looks like, never with the invalid-email error. -/
theorem submitForm_truthiness_before_email_check (env : Env) (t1 t2 : SendOutcome)
    (now : String) (req : ReqBody)
    (h : truthy req.name = false ∨ truthy req.email = false ∨ truthy req.website = false) :
    submitForm env t1 t2 now req =
      { status := 400, body := .errorJson false "Missing required fields"
        calls := [], log := [] } ∧
    truthy (some "   ") = true ∧
    (submitForm env0 .ok .ok "t"
      { name := some "   ", email := some "john@company.com"
        website := some "https://example.com", phone := none
        service := none, message := none }).status = 200 := by
  refine ⟨?_, by decide, by decide⟩
  rcases h with h | h | h <;> simp [submitForm, h]

/-- Witness for C10 at a submission that is missing its name and has a
malformed email, and is nonetheless answered with the missing-fields
error. -/
theorem submitForm_truthiness_before_email_check_witness :
    (submitForm env0 .ok .ok "t" reqNoName =
      { status := 400, body := .errorJson false "Missing required fields"
        calls := [], log := [] } ∧
    truthy (some "   ") = true ∧
    (submitForm env0 .ok .ok "t"
      { name := some "   ", email := some "john@company.com"
        website := some "https://example.com", phone := none
        service := none, message := none }).status = 200) :=
  submitForm_truthiness_before_email_check env0 .ok .ok "t" reqNoName (Or.inl rfl)

end MarkGrow
